import Mathlib

/-!
Shallow embedding of the overheat-punisher core:
`src/analysis/game_analyzer.py` (team_diff_at_death, check_for_death_frame,
check_overheat, FrameState) and the monitor loop body of `src/main.py`.

A captured screen frame is opaque image data in the source; the HUD reader
(`src/detection/hud_detection.py`) extracts structured signals from it.  Here a
`Frame` carries exactly those extracted signals, and the hud_detection
functions become projections, so the analysis code can be embedded verbatim on
top of them.
-/

namespace OverheatPunisher

/-- One kill-feed line, as produced by `hud_detection.detect_kill_feed`
(`KillFeedLine` TypedDict: killer, victim, was_team_death). -/
structure KillFeedLine where
  killer : String
  victim : String
  was_team_death : Bool
deriving DecidableEq, Repr

/-- `hud_detection.RoundState`. -/
inductive RoundState where
  | PRE_ROUND
  | MID_ROUND
  | POST_ROUND
deriving DecidableEq, Repr

/-- A captured frame, abstracted to the HUD signals the analysis code reads
from it: the per-team lists of detected alive-agent icons, the parsed kill
feed, the player-dead flag, and the round-phase classification. -/
structure Frame where
  team1 : List String
  team2 : List String
  kill_feed : List KillFeedLine
  player_dead : Bool
  round_state : RoundState
deriving DecidableEq, Repr

/-- `hud_detection.detect_agent_icons`: the pair of per-team alive lists. -/
def detect_agent_icons (frame : Frame) : List String × List String :=
  (frame.team1, frame.team2)

/-- `hud_detection.detect_kill_feed`. -/
def detect_kill_feed (frame : Frame) : List KillFeedLine :=
  frame.kill_feed

/-- `hud_detection.is_player_dead`. -/
def is_player_dead (frame : Frame) : Bool :=
  frame.player_dead

/-- `hud_detection.detect_round_state`. -/
def detect_round_state (frame : Frame) : RoundState :=
  frame.round_state

/-- Module-level constant `PLAYER_NAME` of `game_analyzer.py`. -/
def PLAYER_NAME : String := "malding"

/-- `game_analyzer.AnalysisResult`. -/
inductive AnalysisResult where
  | OVERHEAT
  | SAFE_CONTINUE
  | SAFE_RESET
deriving DecidableEq, Repr

/-- `len(team1) - len(team2)` for a frame, the repeated idiom of
`game_analyzer.py` (also `FrameState.__post_init__`). -/
def frame_team_diff (frame : Frame) : Int :=
  ((detect_agent_icons frame).1.length : Int) - ((detect_agent_icons frame).2.length : Int)

/-- `game_analyzer.FrameState` dataclass: frame, team_diff (Optional[int]),
timestamp_ms. -/
structure FrameState where
  frame : Frame
  team_diff : Option Int
  timestamp_ms : Int
deriving DecidableEq, Repr

/-- `FrameState` construction including `__post_init__`: when `team_diff` is
passed as `None` it is computed from the frame via `detect_agent_icons`.
`now` is the value the `timestamp_ms` default factory would produce
(`int(time.time() * 1000)` at construction time). -/
def mkFrameState (frame : Frame) (team_diff : Option Int) (now : Int) : FrameState :=
  { frame := frame
    team_diff :=
      match team_diff with
      | none => some (frame_team_diff frame)
      | some d => some d
    timestamp_ms := now }

/-- Python `str.lower()` as used on player names: per-character lowercasing
(the ASCII case suffices for the OCR names this program compares). -/
def py_lower (s : String) : String :=
  ⟨s.data.map Char.toLower⟩

/-- The for-loop of `team_diff_at_death` over the kill feed: apply -1 for an
own-team death and +1 otherwise, and return at the first entry whose victim
matches the target case-insensitively. -/
def replay_feed (target_player : String) (feed : List KillFeedLine)
    (team_diff_at_event : Int) : Int :=
  match feed with
  | [] => team_diff_at_event
  | feed_event :: rest =>
    let d :=
      if feed_event.was_team_death then team_diff_at_event - 1
      else team_diff_at_event + 1
    if py_lower feed_event.victim == py_lower target_player then d
    else replay_feed target_player rest d

/-- `game_analyzer.team_diff_at_death`. -/
def team_diff_at_death (target_player : String) (prev_frame cur_frame : Frame) : Int :=
  let prev_team_diff :=
    ((detect_agent_icons prev_frame).1.length : Int)
      - ((detect_agent_icons prev_frame).2.length : Int)
  let curr_team_diff :=
    ((detect_agent_icons cur_frame).1.length : Int)
      - ((detect_agent_icons cur_frame).2.length : Int)
  if curr_team_diff + 1 == prev_team_diff then
    curr_team_diff
  else
    replay_feed target_player (detect_kill_feed cur_frame) prev_team_diff

/-- `game_analyzer.check_for_death_frame`: latch a `FrameState` when the
player-dead signal holds and the reconstructed differential is at least -1.
`now` is the construction timestamp for the returned `FrameState`. -/
def check_for_death_frame (prev_frame frame : Frame) (now : Int) : Option FrameState :=
  let true_team_death := team_diff_at_death PLAYER_NAME prev_frame frame
  if is_player_dead frame && decide (true_team_death ≥ -1) then
    some (mkFrameState frame (some true_team_death) now)
  else
    none

/-- Python truthiness of an `Optional[int]`: `None` and `0` are falsy. -/
def py_truthy : Option Int → Bool
  | none => false
  | some n => n != 0

/-- `game_analyzer.check_overheat`.  The guard is the source's
`if not (cur_frame_state.team_diff and death_frame_state.team_diff)`, i.e.
Python truthiness of the two optional ints; it raises `ValueError` when either
is falsy.  After the guard both diffs are known integers (`getD 0` is only a
projection there). -/
def check_overheat (death_frame_state cur_frame_state : FrameState) :
    Except String AnalysisResult :=
  if !(py_truthy cur_frame_state.team_diff && py_truthy death_frame_state.team_diff) then
    Except.error "team diffs not set properly"
  else
    let cur_diff := cur_frame_state.team_diff.getD 0
    let death_diff := death_frame_state.team_diff.getD 0
    let death_traded := cur_diff > death_diff
    let trade_window_expired :=
      cur_frame_state.timestamp_ms - death_frame_state.timestamp_ms > 3000
    if trade_window_expired then Except.ok AnalysisResult.OVERHEAT
    else if death_traded then Except.ok AnalysisResult.SAFE_RESET
    else Except.ok AnalysisResult.SAFE_CONTINUE

/-! The monitor loop body of `src/main.py`.  Python-level call binding matters
here: the loop calls `check_for_death_frame` with keyword arguments
`prev_frame`, `frame`, `player_name`, but the function declares only
`prev_frame` and `frame`, so CPython raises `TypeError` before the body runs. -/

/-- Declared parameters of `game_analyzer.check_for_death_frame`. -/
def check_for_death_frame_params : List String := ["prev_frame", "frame"]

/-- Keywords the loop passes at `main.py` lines 26-30. -/
def loop_death_call_kwargs : List String := ["prev_frame", "frame", "player_name"]

/-- Declared parameters of `game_analyzer.check_overheat`. -/
def check_overheat_params : List String := ["death_frame_state", "cur_frame_state"]

/-- Keywords the loop passes at `main.py` lines 34-37. -/
def loop_overheat_call_kwargs : List String := ["death_frame_state", "cur_frame_state"]

/-- Python keyword binding for a function with keyword-only call sites, no
defaults and no kwargs catch-all: the call binds iff every passed keyword
names a declared parameter and every parameter receives a value. -/
def kwargs_bind (params kwargs : List String) : Bool :=
  kwargs.all (fun k => params.contains k) && params.all (fun p => kwargs.contains p)

/-- Observable side effects of one loop iteration: the two `rich.print` calls. -/
inductive LoopEvent where
  | deathFrameFound
  | overheatNotify
deriving DecidableEq, Repr

/-- Uncaught Python exceptions a loop iteration can raise. -/
inductive PyError where
  | typeError (msg : String)
  | valueError (msg : String)
deriving DecidableEq, Repr

/-- The loop-local state carried across iterations of `main.loop`:
`death_frame_state` (the latched DeathRecord) and `prev_frame`. -/
structure LoopState where
  death_frame_state : Option FrameState
  prev_frame : Option Frame
deriving DecidableEq, Repr

/-- One iteration of the `while running` body of `main.loop`, given the frame
captured this iteration and `now`, the timestamp `FrameState`'s default
factory would produce this iteration.  Returns the successor state together
with the emitted print events, or the uncaught exception.  Calls are guarded
by `kwargs_bind` exactly as CPython binds the written keyword arguments. -/
def loop_step (s : LoopState) (cur_frame : Frame) (now : Int) :
    Except PyError (LoopState × List LoopEvent) :=
  match s.prev_frame with
  | none =>
    Except.ok ({ death_frame_state := s.death_frame_state, prev_frame := some cur_frame }, [])
  | some prev_frame =>
    match s.death_frame_state with
    | none =>
      if kwargs_bind check_for_death_frame_params loop_death_call_kwargs then
        let dfs := check_for_death_frame prev_frame cur_frame now
        let events :=
          if dfs.isSome then [LoopEvent.deathFrameFound] else []
        Except.ok ({ death_frame_state := dfs, prev_frame := some cur_frame }, events)
      else
        Except.error (PyError.typeError
          "check_for_death_frame() got an unexpected keyword argument player_name")
    | some dfs =>
      if kwargs_bind check_overheat_params loop_overheat_call_kwargs then
        match check_overheat dfs (mkFrameState cur_frame none now) with
        | Except.error msg => Except.error (PyError.valueError msg)
        | Except.ok anal_res =>
          let events :=
            if anal_res == AnalysisResult.OVERHEAT then [LoopEvent.overheatNotify] else []
          let new_dfs :=
            if anal_res == AnalysisResult.SAFE_RESET then none else some dfs
          Except.ok ({ death_frame_state := new_dfs, prev_frame := some cur_frame }, events)
      else
        Except.error (PyError.typeError
          "check_overheat() got an unexpected keyword argument")

/-- Per-entry differential delta of the kill-feed replay. -/
def feed_delta (e : KillFeedLine) : Int :=
  if e.was_team_death then -1 else 1

/-- Sum of replay deltas over a feed segment. -/
def feed_sum (l : List KillFeedLine) : Int :=
  (l.map feed_delta).sum

/-- Case-insensitive victim match used by the replay loop. -/
def victim_matches (target_player : String) (e : KillFeedLine) : Bool :=
  py_lower e.victim == py_lower target_player

/-! Concrete frames and states used to evaluate the definitions. -/

/-- A frame with empty HUD readings (no icons detected on either side). -/
def frame0 : Frame := ⟨[], [], [], false, RoundState.MID_ROUND⟩

/-- A mid-round frame whose HUD reads one monitored-team icon and none for
the opponents: team diff +1. -/
def frameUp : Frame := ⟨["jett"], [], [], false, RoundState.MID_ROUND⟩

/-- Same HUD reading as `frameUp` but classified POST_ROUND: the round phase
has moved away from mid-round. -/
def postRoundFrame : Frame := ⟨["jett"], [], [], false, RoundState.POST_ROUND⟩

/-- A full 5v5 mid-round frame (team diff 0). -/
def prevFull : Frame :=
  ⟨["a1", "a2", "a3", "a4", "a5"], ["b1", "b2", "b3", "b4", "b5"], [], false,
    RoundState.MID_ROUND⟩

/-- Frame after two monitored-team deaths in one sampling gap (3v5, diff -2),
with the kill feed listing the monitored player first and a teammate second. -/
def curTwoDeaths : Frame :=
  ⟨["a1", "a2", "a3"], ["b1", "b2", "b3", "b4", "b5"],
    [⟨"enemy1", "Malding", true⟩, ⟨"enemy2", "mate", true⟩], true,
    RoundState.MID_ROUND⟩

/-- Frame after exactly one monitored-team death (4v5, diff -1), player dead. -/
def curOneDeath : Frame :=
  ⟨["a1", "a2", "a3", "a4"], ["b1", "b2", "b3", "b4", "b5"],
    [⟨"enemy1", "someone", true⟩], true, RoundState.MID_ROUND⟩

/-- Frame after three monitored-team deaths (2v5, diff -3) whose feed never
names the monitored player as victim. -/
def curNoMatch : Frame :=
  ⟨["a1", "a2"], ["b1", "b2", "b3", "b4", "b5"],
    [⟨"enemy1", "mate1", true⟩, ⟨"a1", "enemy2", false⟩, ⟨"enemy3", "mate2", true⟩],
    true, RoundState.MID_ROUND⟩

/-- A latched DeathRecord with team diff +1 at time 0. -/
def latchedUp : FrameState := ⟨frameUp, some 1, 0⟩

/-- A latched DeathRecord with team diff -1 at time 0. -/
def latchedDown : FrameState := ⟨frameUp, some (-1), 0⟩

/-- Loop state in the ANALYZING phase: a record is latched, a previous frame
exists. -/
def loopAnalyzing : LoopState := ⟨some latchedUp, some frameUp⟩

end OverheatPunisher

namespace OverheatPunisher

/-- The replay loop over a feed segment with no matching victim falls through
and accumulates every delta. -/
theorem replay_feed_no_match (target_player : String) (l : List KillFeedLine) (d : Int)
    (h : ∀ x ∈ l, victim_matches target_player x = false) :
    replay_feed target_player l d = d + feed_sum l := by
  induction l generalizing d with
  | nil => simp [replay_feed, feed_sum]
  | cons e rest ih =>
    have he : (py_lower e.victim == py_lower target_player) = false := h e (by simp)
    have hrest : ∀ x ∈ rest, victim_matches target_player x = false :=
      fun x hx => h x (by simp [hx])
    rw [replay_feed, he]
    simp only [Bool.false_eq_true, if_false]
    rw [ih _ hrest]
    simp only [feed_sum, feed_delta, List.map_cons, List.sum_cons]
    cases hb : e.was_team_death <;> simp <;> omega

/-- The replay loop returns at the first matching victim, with the running
differential after that entry's delta. -/
theorem replay_feed_first_match (target_player : String) (l1 l2 : List KillFeedLine)
    (e : KillFeedLine) (d : Int)
    (hbefore : ∀ x ∈ l1, victim_matches target_player x = false)
    (hmatch : victim_matches target_player e = true) :
    replay_feed target_player (l1 ++ e :: l2) d = d + feed_sum l1 + feed_delta e := by
  induction l1 generalizing d with
  | nil =>
    have he : (py_lower e.victim == py_lower target_player) = true := hmatch
    rw [List.nil_append, replay_feed, he]
    simp only [feed_sum, List.map_nil, List.sum_nil, feed_delta]
    cases hb : e.was_team_death <;> simp <;> omega
  | cons x rest ih =>
    have hx : (py_lower x.victim == py_lower target_player) = false := hbefore x (by simp)
    have hrest : ∀ y ∈ rest, victim_matches target_player y = false :=
      fun y hy => hbefore y (by simp [hy])
    rw [List.cons_append, replay_feed, hx]
    simp only [Bool.false_eq_true, if_false]
    rw [ih _ hrest]
    simp only [feed_sum, feed_delta, List.map_cons, List.sum_cons]
    cases hb : x.was_team_death <;> simp <;> omega

/-- C1 counterexample: with trade achieved (cur diff 1 > death diff -1) but
the window expired (4000 ms > 3000 ms), `check_overheat` returns OVERHEAT,
not the SAFE_RESET the claim demands for every trade-achieved input. -/
theorem check_overheat_trade_after_window_counterexample :
    check_overheat { frame := frame0, team_diff := some (-1), timestamp_ms := 0 }
        { frame := frame0, team_diff := some 1, timestamp_ms := 4000 }
      = Except.ok AnalysisResult.OVERHEAT
    ∧ AnalysisResult.OVERHEAT ≠ AnalysisResult.SAFE_RESET
    ∧ (1 : Int) > (-1 : Int) ∧ (4000 : Int) - 0 > 3000 :=
  ⟨rfl, by decide, by decide, by decide⟩

/-- C1 (amended): for both diffs present and nonzero, `check_overheat` returns
OVERHEAT iff elapsed > 3000 ms regardless of the trade, SAFE_RESET iff not
expired and cur diff > death diff, and SAFE_CONTINUE otherwise. -/
theorem check_overheat_precedence (death_frame_state cur_frame_state : FrameState)
    (dd cd : Int)
    (hd : death_frame_state.team_diff = some dd)
    (hc : cur_frame_state.team_diff = some cd)
    (hd0 : dd ≠ 0) (hc0 : cd ≠ 0) :
    check_overheat death_frame_state cur_frame_state
      = Except.ok
          (if cur_frame_state.timestamp_ms - death_frame_state.timestamp_ms > 3000 then
            AnalysisResult.OVERHEAT
          else if cd > dd then AnalysisResult.SAFE_RESET
          else AnalysisResult.SAFE_CONTINUE) := by
  rw [check_overheat]
  simp only [hd, hc, py_truthy, Option.getD_some]
  rw [show (cd != 0) = true by simpa using hc0, show (dd != 0) = true by simpa using hd0]
  simp only [Bool.and_self, Bool.not_true, Bool.false_eq_true, if_false]
  split
  · rfl
  · split <;> rfl

/-- Witness for C1 (amended) at a concrete in-window traded input. -/
theorem check_overheat_precedence_witness :
    check_overheat { frame := frame0, team_diff := some (-1), timestamp_ms := 0 }
        { frame := frame0, team_diff := some 2, timestamp_ms := 2000 }
      = Except.ok
          (if (2000 : Int) - 0 > 3000 then AnalysisResult.OVERHEAT
          else if (2 : Int) > -1 then AnalysisResult.SAFE_RESET
          else AnalysisResult.SAFE_CONTINUE) :=
  check_overheat_precedence _ _ (-1) 2 rfl rfl (by decide) (by decide)

/-- C2: on an OVERHEAT classification the loop keeps the DeathRecord latched
and re-emits the overheat notification on the very next poll of the same
death: two consecutive iterations from the same latched state both end in
that state and both emit the notification. -/
theorem overheat_keeps_record_and_repeats_notification :
    loop_step loopAnalyzing frameUp 4000
      = Except.ok (loopAnalyzing, [LoopEvent.overheatNotify])
    ∧ loop_step loopAnalyzing frameUp 5000
      = Except.ok (loopAnalyzing, [LoopEvent.overheatNotify]) :=
  ⟨rfl, rfl⟩

/-- C3 counterexample: the round phase moves from MID_ROUND to POST_ROUND
while ANALYZING and the classification is SAFE_CONTINUE, yet the latched
DeathRecord survives the iteration. -/
theorem round_phase_change_keeps_record_counterexample :
    detect_round_state frameUp = RoundState.MID_ROUND
    ∧ detect_round_state postRoundFrame ≠ RoundState.MID_ROUND
    ∧ loop_step loopAnalyzing postRoundFrame 1000
      = Except.ok (⟨some latchedUp, some postRoundFrame⟩, []) :=
  ⟨rfl, by decide, rfl⟩

/-- C3 (amended): the monitor loop never observes the round phase; a latched
DeathRecord is cleared by an iteration only when the classification of the
current snapshot is SAFE_RESET, whatever the round phase of the frame. -/
theorem record_cleared_only_by_safe_reset (s : LoopState) (cur_frame : Frame) (now : Int)
    (d : FrameState) (s2 : LoopState) (evs : List LoopEvent)
    (hd : s.death_frame_state = some d)
    (hstep : loop_step s cur_frame now = Except.ok (s2, evs))
    (hclear : s2.death_frame_state = none) :
    check_overheat d (mkFrameState cur_frame none now) = Except.ok AnalysisResult.SAFE_RESET := by
  cases hp : s.prev_frame with
  | none =>
    rw [loop_step, hp] at hstep
    simp only [Except.ok.injEq, Prod.mk.injEq] at hstep
    rw [← hstep.1] at hclear
    simp [hd] at hclear
  | some prev_frame =>
    rw [loop_step, hp, hd] at hstep
    simp only [show kwargs_bind check_overheat_params loop_overheat_call_kwargs = true
      from by decide, if_true] at hstep
    cases hco : check_overheat d (mkFrameState cur_frame none now) with
    | error msg =>
      rw [hco] at hstep
      exact absurd hstep (by simp)
    | ok res =>
      rw [hco] at hstep
      simp only [Except.ok.injEq, Prod.mk.injEq] at hstep
      cases res with
      | SAFE_RESET => rfl
      | OVERHEAT =>
        exfalso
        rw [← hstep.1] at hclear
        simp at hclear
      | SAFE_CONTINUE =>
        exfalso
        rw [← hstep.1] at hclear
        simp at hclear

/-- Witness for C3 (amended): a concrete iteration that does clear the record,
whose classification is indeed SAFE_RESET. -/
theorem record_cleared_only_by_safe_reset_witness :
    check_overheat latchedDown (mkFrameState frameUp none 1000)
      = Except.ok AnalysisResult.SAFE_RESET :=
  record_cleared_only_by_safe_reset ⟨some latchedDown, some frameUp⟩ frameUp 1000
    latchedDown ⟨none, some frameUp⟩ [] rfl rfl rfl

/-- C4: whenever a previous frame exists and no death is latched, the loop
body's call to `check_for_death_frame` raises TypeError, because the call
passes the keyword `player_name` which the function does not declare; the
function itself targets the module constant `PLAYER_NAME = "malding"`. -/
theorem loop_detection_call_type_error (s : LoopState) (prev_frame cur_frame : Frame)
    (now : Int)
    (hp : s.prev_frame = some prev_frame)
    (hd : s.death_frame_state = none) :
    loop_step s cur_frame now
      = Except.error (PyError.typeError
          "check_for_death_frame() got an unexpected keyword argument player_name")
    ∧ kwargs_bind check_for_death_frame_params loop_death_call_kwargs = false
    ∧ PLAYER_NAME = "malding" := by
  refine ⟨?_, by decide, rfl⟩
  rw [loop_step, hp, hd]
  simp [show kwargs_bind check_for_death_frame_params loop_death_call_kwargs = false
    from by decide]

/-- Witness for C4 at a concrete MONITORING state with a previous frame. -/
theorem loop_detection_call_type_error_witness :
    loop_step ⟨none, some frame0⟩ frame0 0
      = Except.error (PyError.typeError
          "check_for_death_frame() got an unexpected keyword argument player_name")
    ∧ kwargs_bind check_for_death_frame_params loop_death_call_kwargs = false
    ∧ PLAYER_NAME = "malding" :=
  loop_detection_call_type_error ⟨none, some frame0⟩ frame0 frame0 0 rfl rfl

/-- C5: with at least two net deaths in the gap and the target player a
victim exactly once, `team_diff_at_death` replays the feed from the previous
diff and returns the running differential right after the matching entry,
whatever precedes or follows it. -/
theorem team_diff_at_death_replay (target_player : String) (prev_frame cur_frame : Frame)
    (l1 l2 : List KillFeedLine) (e : KillFeedLine)
    (hfeed : cur_frame.kill_feed = l1 ++ e :: l2)
    (hmatch : victim_matches target_player e = true)
    (hbefore : ∀ x ∈ l1, victim_matches target_player x = false)
    (hafter : ∀ x ∈ l2, victim_matches target_player x = false)
    (hnet : frame_team_diff cur_frame ≤ frame_team_diff prev_frame - 2) :
    team_diff_at_death target_player prev_frame cur_frame
      = frame_team_diff prev_frame + feed_sum l1 + feed_delta e := by
  have hne : ((cur_frame.team1.length : Int) - (cur_frame.team2.length : Int) + 1
      == (prev_frame.team1.length : Int) - (prev_frame.team2.length : Int)) = false := by
    rw [beq_eq_false_iff_ne]
    simp only [frame_team_diff, detect_agent_icons] at hnet
    omega
  rw [team_diff_at_death]
  simp only [detect_agent_icons, detect_kill_feed]
  rw [hne]
  simp only [Bool.false_eq_true, if_false]
  rw [hfeed, replay_feed_first_match target_player l1 l2 e _ hbefore hmatch]
  rfl

/-- Witness for C5: 5v5 to 3v5 with the player the first of two feed victims. -/
theorem team_diff_at_death_replay_witness :
    team_diff_at_death "malding" prevFull curTwoDeaths = -1 :=
  team_diff_at_death_replay "malding" prevFull curTwoDeaths
    [] [⟨"enemy2", "mate", true⟩] ⟨"enemy1", "Malding", true⟩
    rfl (by decide) (by decide) (by decide) (by decide)

/-- C6: when exactly one net death occurred (cur diff = prev diff - 1) the
fast path returns the current diff for every possible kill feed — the feed is
never consulted. -/
theorem team_diff_at_death_fast_path (target_player : String) (prev_frame cur_frame : Frame)
    (h : frame_team_diff cur_frame = frame_team_diff prev_frame - 1) :
    ∀ feed : List KillFeedLine,
      team_diff_at_death target_player prev_frame { cur_frame with kill_feed := feed }
        = frame_team_diff cur_frame := by
  intro feed
  have heq : ((cur_frame.team1.length : Int) - (cur_frame.team2.length : Int) + 1
      == (prev_frame.team1.length : Int) - (prev_frame.team2.length : Int)) = true := by
    rw [beq_iff_eq]
    simp only [frame_team_diff, detect_agent_icons] at h
    omega
  rw [team_diff_at_death]
  simp only [detect_agent_icons]
  rw [heq]
  simp [frame_team_diff, detect_agent_icons]

/-- Witness for C6: 5v5 to 4v5 with the feed emptied. -/
theorem team_diff_at_death_fast_path_witness :
    team_diff_at_death "malding" prevFull { curOneDeath with kill_feed := [] } = -1 :=
  team_diff_at_death_fast_path "malding" prevFull curOneDeath (by decide) []

/-- C7: `check_overheat` raises on the valid present value 0 — here the death
record's diff is the integer 0, both diffs are present, and the call still
errors, because the source's truthiness guard cannot tell 0 from None. -/
theorem check_overheat_zero_diff_raises :
    check_overheat { frame := frame0, team_diff := some 0, timestamp_ms := 0 }
        { frame := frame0, team_diff := some 2, timestamp_ms := 100 }
      = Except.error "team diffs not set properly" := rfl

/-- C8: spec Scenario C (death diff -1 latched at 1000; current diff 0 at
2000) makes `check_overheat` raise instead of returning SAFE_RESET: the
current diff 0 is falsy under the source's truthiness guard. -/
theorem scenario_c_zero_diff_raises :
    check_overheat { frame := frame0, team_diff := some (-1), timestamp_ms := 1000 }
        { frame := frame0, team_diff := some 0, timestamp_ms := 2000 }
      = Except.error "team diffs not set properly" := rfl

/-- C9: `check_for_death_frame` returns a record iff the player-dead signal
holds and the reconstructed diff is at least -1, and the returned record
carries exactly that reconstructed differential. -/
theorem check_for_death_frame_characterization (prev_frame cur_frame : Frame) (now : Int) :
    ((check_for_death_frame prev_frame cur_frame now).isSome
        ↔ (is_player_dead cur_frame = true
            ∧ team_diff_at_death PLAYER_NAME prev_frame cur_frame ≥ -1))
    ∧ ∀ fs : FrameState,
        check_for_death_frame prev_frame cur_frame now = some fs
          → fs.team_diff = some (team_diff_at_death PLAYER_NAME prev_frame cur_frame) := by
  constructor
  · rw [check_for_death_frame]
    by_cases hcond : (is_player_dead cur_frame
        && decide (team_diff_at_death PLAYER_NAME prev_frame cur_frame ≥ -1)) = true
    · rw [if_pos hcond]
      simp only [Option.isSome_some, true_iff]
      simpa [Bool.and_eq_true, decide_eq_true_eq] using hcond
    · rw [if_neg hcond]
      simp only [Option.isSome_none, Bool.false_eq_true, false_iff]
      intro hcontra
      exact hcond (by simp [hcontra.1, hcontra.2])
  · intro fs h
    rw [check_for_death_frame] at h
    split at h
    · cases h
      rfl
    · exact absurd h (by simp)

/-- Witness for C9: the record latched from a concrete 5v5 to 4v5 death frame
carries the reconstructed diff. -/
theorem check_for_death_frame_characterization_witness :
    (mkFrameState curOneDeath
        (some (team_diff_at_death PLAYER_NAME prevFull curOneDeath)) 7).team_diff
      = some (team_diff_at_death PLAYER_NAME prevFull curOneDeath) :=
  (check_for_death_frame_characterization prevFull curOneDeath 7).2 _ rfl

/-- C10: when the fast path does not apply and no feed entry matches the
target, `team_diff_at_death` returns the fully accumulated differential; the
function is total, so no error is possible. -/
theorem team_diff_at_death_no_match_fallback (target_player : String)
    (prev_frame cur_frame : Frame)
    (hfast : frame_team_diff cur_frame + 1 ≠ frame_team_diff prev_frame)
    (hnomatch : ∀ x ∈ detect_kill_feed cur_frame, victim_matches target_player x = false) :
    team_diff_at_death target_player prev_frame cur_frame
      = frame_team_diff prev_frame + feed_sum (detect_kill_feed cur_frame) := by
  have hne : ((cur_frame.team1.length : Int) - (cur_frame.team2.length : Int) + 1
      == (prev_frame.team1.length : Int) - (prev_frame.team2.length : Int)) = false := by
    rw [beq_eq_false_iff_ne]
    simp only [frame_team_diff, detect_agent_icons] at hfast
    exact hfast
  rw [team_diff_at_death]
  simp only [detect_agent_icons, detect_kill_feed]
  rw [hne]
  simp only [Bool.false_eq_true, if_false]
  rw [replay_feed_no_match target_player _ _ (by simpa [detect_kill_feed] using hnomatch)]
  rfl

/-- Witness for C10: three-death gap (5v5 to 2v5) with no matching victim. -/
theorem team_diff_at_death_no_match_fallback_witness :
    team_diff_at_death "malding" prevFull curNoMatch = -1 :=
  team_diff_at_death_no_match_fallback "malding" prevFull curNoMatch (by decide) (by decide)

end OverheatPunisher
